import Mathlib

/-!
# Debate relay handler (`src/Backend.js`)

A shallow embedding of the single `POST /debate` route of `Backend.js`:
the destructuring of the request body, the template literal that builds the
prompt, the outbound `fetch`, the optional chain that extracts the completion
and the two `res.json` calls.  The upstream service is an input of the model
(`Upstream`): the handler is a function of the request body and of what the
outbound call does.
-/

namespace Backend

/-! ## JavaScript values that come out of `JSON.parse` -/

/-- A value produced by `JSON.parse` (`express.json()` for the request,
`openaiRes.json()` for the upstream body).  A number is carried as the text
that `Number::toString` gives for it, which is all the handler ever observes
of a number (it does no arithmetic); a literal too large for a double, such as
`1e999`, parses to an infinity, whose text is `Infinity` or `-Infinity`.  An
object is the list of its own properties in enumeration order.  A JavaScript
`undefined` is not a JSON value; it is `none` in `Option Json`. -/
inductive Json where
  | null : Json
  | bool (b : Bool) : Json
  | num (text : String) : Json
  | str (s : String) : Json
  | arr (items : List Json) : Json
  | obj (fields : List (String × Json)) : Json

/-- Own property `key` of a parsed object, `none` for `undefined`. -/
def lookup (key : String) : List (String × Json) → Option Json
  | [] => none
  | (k, v) :: rest => if k = key then some v else lookup key rest

mutual
/-- The abstract operation `ToString` on a parsed value, as run by a template
literal substitution; `none` when it throws a `TypeError`.  An object goes
through `OrdinaryToPrimitive` with hint string: an own `toString` member
(never callable in parsed JSON) shadows `Object.prototype.toString` and is
skipped, `Object.prototype.valueOf` returns the object itself, so the
conversion throws; without such a member the result is `[object Object]`.
An array goes through `Array.prototype.join`. -/
def toStringJS : Json → Option String
  | .null => some "null"
  | .bool true => some "true"
  | .bool false => some "false"
  | .num text => some text
  | .str s => some s
  | .arr items => joinJS 0 items
  | .obj fields =>
    match lookup "toString" fields with
    | some _ => none
    | none => some "[object Object]"
termination_by structural v => v
/-- The loop of `Array.prototype.join` with the default separator `,`, from
index `k` on: the separator goes before every element but the first, a `null`
element gives the empty string, every other element its `ToString`. -/
def joinJS (k : Nat) : List Json → Option String
  | [] => some ""
  | x :: rest =>
    match (match x with
           | .null => some ""
           | _ => toStringJS x), joinJS (k + 1) rest with
    | some next, some tail => some ((if k > 0 then "," else "") ++ next ++ tail)
    | _, _ => none
termination_by structural xs => xs
end

/-- Whether the number with this `Number::toString` text is finite. -/
def finiteText (text : String) : Bool :=
  !(text == "Infinity" || text == "-Infinity" || text == "NaN")

mutual
/-- The JSON document that `JSON.stringify` writes for a parsed value, read
as a value: what the receiver of the document gets.  A number that is not
finite is written as `null`; everything else is written as it is (a parsed
value has no callable `toJSON` and no `undefined` member). -/
def stringify : Json → Json
  | .null => .null
  | .bool b => .bool b
  | .num text => if finiteText text then .num text else .null
  | .str s => .str s
  | .arr items => .arr (stringifyItems items)
  | .obj fields => .obj (stringifyFields fields)
termination_by structural v => v
/-- The elements of an array as `JSON.stringify` writes them. -/
def stringifyItems : List Json → List Json
  | [] => []
  | x :: rest => stringify x :: stringifyItems rest
termination_by structural xs => xs
/-- The members of an object as `JSON.stringify` writes them. -/
def stringifyFields : List (String × Json) → List (String × Json)
  | [] => []
  | (k, v) :: rest => (k, stringify v) :: stringifyFields rest
termination_by structural fs => fs
end

mutual
/-- Whether every number inside a parsed value is finite. -/
def allFinite : Json → Bool
  | .null => true
  | .bool _ => true
  | .num text => finiteText text
  | .str _ => true
  | .arr items => allFiniteItems items
  | .obj fields => allFiniteFields fields
termination_by structural v => v
/-- Whether every number inside the elements is finite. -/
def allFiniteItems : List Json → Bool
  | [] => true
  | x :: rest => allFinite x && allFiniteItems rest
termination_by structural xs => xs
/-- Whether every number inside the members is finite. -/
def allFiniteFields : List (String × Json) → Bool
  | [] => true
  | (_, v) :: rest => allFinite v && allFiniteFields rest
termination_by structural fs => fs
end

/-! ## The handler -/

/-- What a `throw` carries: a `TypeError` raised by the language, or the
reason a promise (`fetch`, `openaiRes.json()`) rejected with. -/
inductive Thrown where
  | typeError : Thrown
  | rejection (reason : String) : Thrown

/-- What the outbound call does, as seen by the handler: `fetch` rejects; or
it resolves with some HTTP status and `openaiRes.json()` rejects because the
body is not JSON; or it resolves and the body parses to `data`. -/
inductive Upstream where
  | fetchRejects (reason : String) : Upstream
  | bodyNotJson (status : Nat) (reason : String) : Upstream
  | bodyJson (status : Nat) (data : Json) : Upstream

/-- The arguments of the one `fetch` call.  `body` is the JSON document
that `JSON.stringify` writes in line 25. -/
structure OutboundCall where
  url : String
  method : String
  headers : List (String × String)
  body : Json

/-- What `res` sends: the status code and the JSON document that goes out,
which is what `JSON.stringify`, called by `res.json`, writes for its argument. -/
structure Response where
  status : Nat
  body : Json

/-- One run of the handler: the `fetch` calls made, the values given to
`console.error`, and the response sent.  `response = none` means the handler
threw before the `try` block, where nothing catches it. -/
structure Run where
  calls : List OutboundCall
  logged : List Thrown
  response : Option Response

/-- The three names bound by `const {topic, userMessage, role} = req.body`. -/
structure Bindings where
  topic : Option Json
  userMessage : Option Json
  role : Option Json

/-- The property read `v.name` on a value that is not `null`, for the names
the handler reads (`topic`, `userMessage`, `role`, `choices`, `message`,
`content`): an object gives its own member, every other value `undefined`,
since no prototype defines one of these names. -/
def getNamed (name : String) : Json → Option Json
  | .obj fields => lookup name fields
  | _ => none

/-- The property read `v[0]` on a value that is not `null`: the first element
of an array, the member `0` of an object, the first code unit of a string (for
a character outside the basic plane JavaScript gives half of it, a string all
the same), `undefined` for a number or a boolean. -/
def getFirst : Json → Option Json
  | .arr [] => none
  | .arr (first :: _) => some first
  | .obj fields => lookup "0" fields
  | .str s => if s = "" then none else some (.str (s.take 1))
  | _ => none

/-- The destructuring `const {topic, userMessage, role} = req.body`; `none`
is the `TypeError` that destructuring `null` throws. -/
def destructure (body : Json) : Option Bindings :=
  match body with
  | .null => none
  | _ => some ⟨getNamed "topic" body, getNamed "userMessage" body, getNamed "role" body⟩

/-- A template literal substitution: `undefined` gives the text `undefined`,
a value its `ToString`. -/
def substitute : Option Json → Option String
  | none => some "undefined"
  | some v => toStringJS v

/-- The template literal of lines 14-16 once both substitutions are strings. -/
def promptText (topic userMessage : String) : String :=
  "You are an argumentative debate partner. Topic: " ++ topic ++
  "\nUser says: \"" ++ userMessage ++
  "\"\nRespond with one clear argument or rebuttal in 2-4 sentences. Be concise and give reasoning."

/-- The `const prompt` of the handler; `none` when a substitution throws. -/
def prompt (topic userMessage : Option Json) : Option String :=
  match substitute topic, substitute userMessage with
  | some t, some u => some (promptText t u)
  | _, _ => none

/-- The `fetch` call of lines 19-30; `apiKey` is `process.env.OPENAI_API_KEY`. -/
def outboundCall (apiKey : Option String) (promptValue : String) : OutboundCall :=
  { url := "https://api.openai.com/v1/chat/completions"
    method := "POST"
    headers := [("Content-Type", "application/json"),
                ("Authorization", "Bearer " ++ (match apiKey with
                                                | some key => key
                                                | none => "undefined"))]
    body := stringify
      (.obj [("model", .str "gpt-4o-mini"),
             ("messages", .arr [.obj [("role", .str "system"),
                                      ("content", .str "You are a helpful debate partner.")],
                                .obj [("role", .str "user"),
                                      ("content", .str promptValue)]]),
             ("max_tokens", .num "200")]) }

/-- The string on the right of `??` in line 32. -/
def fallbackReply : String := "Sorry, I couldn't generate a reply."

/-- Optional chaining `v?.step`: `undefined` when `v` is `undefined` or `null`. -/
def optionalAccess (read : Json → Option Json) : Option Json → Option Json
  | none => none
  | some .null => none
  | some v => read v

/-- Nullish coalescing `v ?? other`. -/
def coalesce (other : Json) : Option Json → Json
  | none => other
  | some .null => other
  | some v => v

/-- Line 32: `data.choices?.[0]?.message?.content ?? "Sorry, ..."`.  The first
read is not optional, so it throws a `TypeError` on `null`. -/
def aiText (data : Json) : Except Thrown Json :=
  match data with
  | .null => .error .typeError
  | _ =>
    let choices := getNamed "choices" data
    let first := optionalAccess getFirst choices
    let message := optionalAccess (getNamed "message") first
    let content := optionalAccess (getNamed "content") message
    .ok (coalesce (.str fallbackReply) content)

/-- The `try` block after the `fetch` call has been issued: the awaited
`fetch`, the awaited `openaiRes.json()` and the extraction; an error is what
the `catch` receives.  The upstream status is never read. -/
def tryBlock : Upstream → Except Thrown Json
  | .fetchRejects reason => .error (.rejection reason)
  | .bodyNotJson _ reason => .error (.rejection reason)
  | .bodyJson _ data => aiText data

/-- The argument of `res.status(500).json` in the `catch`. -/
def errorBody : Json := .obj [("error", .str "backend error")]

/-- Lines 11-16, the part of the handler before the `try`: the prompt with
which the `fetch` is reached, `none` when the destructuring or the template
literal throws. -/
def builtPrompt (body : Json) : Option String :=
  match destructure body with
  | none => none
  | some bound => prompt bound.topic bound.userMessage

/-- The handler of `app.post("/debate", ...)`.  An error before the `try`
leaves nothing called, nothing logged and nothing sent; `res.json` sends its
argument through `JSON.stringify`. -/
def handler (apiKey : Option String) (body : Json) (up : Upstream) : Run :=
  match builtPrompt body with
  | none => ⟨[], [], none⟩
  | some promptValue =>
    match tryBlock up with
    | .ok text =>
      ⟨[outboundCall apiKey promptValue], [],
        some ⟨200, stringify (.obj [("reply", text)])⟩⟩
    | .error err =>
      ⟨[outboundCall apiKey promptValue], [err], some ⟨500, stringify errorBody⟩⟩

/-! ## The path `choices[0].message.content` read off a document -/

/-- The member `message.content` of one choice, `none` when `message` or
`content` is missing or `message` is not an object. -/
def messageContent : Json → Option Json
  | .obj choice =>
    match lookup "message" choice with
    | some (.obj message) => lookup "content" message
    | _ => none
  | _ => none

/-- The value found at `choices[0].message.content` in a parsed document,
`none` when a member on the way is missing.  As in JavaScript, `[0]` is the
first element of an array or the member named `0` of an object. -/
def contentAt : Json → Option Json
  | .obj top =>
    match lookup "choices" top with
    | some (.arr (first :: _)) => messageContent first
    | some (.obj members) =>
      match lookup "0" members with
      | some first => messageContent first
      | none => none
    | _ => none
  | _ => none

/-! ## Lemmas on the extraction -/

/-- The two optional reads `?.message?.content` followed by `??` agree with
`messageContent`. -/
theorem coalesce_message_content (other : Json) (first : Option Json) :
    coalesce other
        (optionalAccess (getNamed "content") (optionalAccess (getNamed "message") first))
      = coalesce other (first.bind messageContent) := by
  rcases first with _ | v
  · rfl
  · cases v with
    | obj choice =>
      simp only [optionalAccess, getNamed, Option.bind, messageContent]
      rcases lookup "message" choice with _ | m
      · rfl
      · cases m <;> rfl
    | _ => rfl

/-- The optional read `?.[0]` of the member `choices` agrees with `contentAt`. -/
theorem first_choice_content (top : List (String × Json)) :
    (optionalAccess getFirst (lookup "choices" top)).bind messageContent
      = contentAt (.obj top) := by
  simp only [contentAt]
  rcases lookup "choices" top with _ | c
  · rfl
  · cases c with
    | arr items => cases items <;> rfl
    | obj members =>
      simp only [optionalAccess, getFirst]
      rcases lookup "0" members with _ | first <;> rfl
    | str s =>
      simp only [optionalAccess, getFirst]
      split <;> rfl
    | _ => rfl

/-- On every parsed document but `null`, line 32 yields the value at
`choices[0].message.content`, or the fallback string when that value is
missing or `null`. -/
theorem aiText_eq (data : Json) (hdata : data ≠ .null) :
    aiText data = .ok (coalesce (.str fallbackReply) (contentAt data)) := by
  cases data with
  | null => exact absurd rfl hdata
  | obj top =>
    simp only [aiText, getNamed, coalesce_message_content, first_choice_content]
  | _ => rfl

/-- A document with something at `choices[0].message.content` is not `null`. -/
theorem ne_null_of_contentAt {data v : Json} (h : contentAt data = some v) :
    data ≠ .null := by
  intro hnull
  subst hnull
  cases h

/-- The two outcomes of `??`: the left side is missing or `null` and the
right side is taken, or the left side is a value other than `null` and is kept. -/
theorem coalesce_cases (other : Json) (x : Option Json) :
    ((x = none ∨ x = some .null) ∧ coalesce other x = other)
    ∨ (x = some (coalesce other x) ∧ coalesce other x ≠ .null) := by
  rcases x with _ | v
  · exact Or.inl ⟨Or.inl rfl, rfl⟩
  · cases v with
    | null => exact Or.inl ⟨Or.inr rfl, rfl⟩
    | _ => exact Or.inr ⟨rfl, by intro h; cases h⟩

/-- Destructuring succeeds on every body but `null`. -/
theorem destructure_of_ne_null (body : Json) (hbody : body ≠ .null) :
    destructure body
      = some ⟨getNamed "topic" body, getNamed "userMessage" body, getNamed "role" body⟩ := by
  cases body with
  | null => exact absurd rfl hbody
  | _ => rfl

/-- Once the `fetch` is reached, the run is decided by the `try` block. -/
theorem handler_of_builtPrompt (apiKey : Option String) (body : Json) (up : Upstream)
    (promptValue : String) (hcall : builtPrompt body = some promptValue) :
    handler apiKey body up =
      match tryBlock up with
      | .ok text =>
        ⟨[outboundCall apiKey promptValue], [],
          some ⟨200, .obj [("reply", stringify text)]⟩⟩
      | .error err =>
        ⟨[outboundCall apiKey promptValue], [err],
          some ⟨500, .obj [("error", .str "backend error")]⟩⟩ := by
  simp only [handler, hcall]
  cases tryBlock up <;> rfl

mutual
/-- A value whose numbers are all finite is written by `JSON.stringify` as
it is. -/
theorem stringify_of_allFinite : ∀ v : Json, allFinite v = true → stringify v = v
  | .null, _ => rfl
  | .bool _, _ => rfl
  | .num text, h => by
    simp only [allFinite] at h
    simp only [stringify, h, if_true]
  | .str _, _ => rfl
  | .arr items, h => by
    simp only [allFinite] at h
    simp only [stringify, stringifyItems_of_allFinite items h]
  | .obj fields, h => by
    simp only [allFinite] at h
    simp only [stringify, stringifyFields_of_allFinite fields h]
termination_by structural v => v
/-- Elements whose numbers are all finite are written as they are. -/
theorem stringifyItems_of_allFinite :
    ∀ xs : List Json, allFiniteItems xs = true → stringifyItems xs = xs
  | [], _ => rfl
  | x :: rest, h => by
    simp only [allFiniteItems, Bool.and_eq_true] at h
    simp only [stringifyItems, stringify_of_allFinite x h.1,
      stringifyItems_of_allFinite rest h.2]
termination_by structural xs => xs
/-- Members whose numbers are all finite are written as they are. -/
theorem stringifyFields_of_allFinite :
    ∀ fs : List (String × Json), allFiniteFields fs = true → stringifyFields fs = fs
  | [], _ => rfl
  | (k, v) :: rest, h => by
    simp only [allFiniteFields, Bool.and_eq_true] at h
    simp only [stringifyFields, stringify_of_allFinite v h.1,
      stringifyFields_of_allFinite rest h.2]
termination_by structural fs => fs
end

/-! ## The relay contract -/

/-- C1: whenever the handler reaches the `fetch`, the fetch resolves, the
body parses and `choices[0].message.content` is a non-empty string `S`, the
handler makes its one call, logs nothing and responds with status 200 and body
`{reply: S}`, the string unchanged, whatever the upstream status was. -/
theorem debate_relays_completion (apiKey : Option String) (body : Json)
    (promptValue : String) (status : Nat) (data : Json) (S : String)
    (hcall : builtPrompt body = some promptValue)
    (hcontent : contentAt data = some (.str S)) (_hne : S ≠ "") :
    handler apiKey body (.bodyJson status data) =
      ⟨[outboundCall apiKey promptValue], [], some ⟨200, .obj [("reply", .str S)]⟩⟩ := by
  rw [handler_of_builtPrompt apiKey body _ promptValue hcall]
  simp only [tryBlock, aiText_eq data (ne_null_of_contentAt hcontent), hcontent, coalesce,
    stringify]

/-- Scenario A of the specification, through `debate_relays_completion`. -/
theorem debate_relays_completion_witness :
    handler (some "sk-test")
        (.obj [("topic", .str "AI regulation"),
               ("userMessage", .str "AI should be regulated"),
               ("role", .str "user")])
        (.bodyJson 200
          (.obj [("choices", .arr [.obj [("message",
            .obj [("content", .str "Regulation may stifle innovation...")])]])])) =
      ⟨[outboundCall (some "sk-test")
          (promptText "AI regulation" "AI should be regulated")], [],
        some ⟨200, .obj [("reply", .str "Regulation may stifle innovation...")]⟩⟩ :=
  debate_relays_completion (some "sk-test") _ _ 200 _ "Regulation may stifle innovation..."
    rfl rfl (by decide)

/-- C2: whenever the handler reaches the `fetch` and the fetch rejects, or
it resolves and reading the body as JSON throws, the handler responds with
status 500 and body `{error: "backend error"}`; the response is the same
constant for every rejection reason, upstream status and request. -/
theorem debate_upstream_failure_is_500 (apiKey : Option String) (body : Json)
    (promptValue : String) (hcall : builtPrompt body = some promptValue) :
    (∀ reason : String,
        (handler apiKey body (.fetchRejects reason)).response
          = some ⟨500, .obj [("error", .str "backend error")]⟩)
    ∧ (∀ (status : Nat) (reason : String),
        (handler apiKey body (.bodyNotJson status reason)).response
          = some ⟨500, .obj [("error", .str "backend error")]⟩) := by
  constructor
  · intro reason
    rw [handler_of_builtPrompt apiKey body _ promptValue hcall]
    rfl
  · intro status reason
    rw [handler_of_builtPrompt apiKey body _ promptValue hcall]
    rfl

/-- Scenario B of the specification, through `debate_upstream_failure_is_500`. -/
theorem debate_upstream_failure_is_500_witness :
    (handler none
        (.obj [("topic", .str "AI regulation"),
               ("userMessage", .str "AI should be regulated"),
               ("role", .str "user")])
        (.fetchRejects "ECONNRESET")).response
      = some ⟨500, .obj [("error", .str "backend error")]⟩ :=
  (debate_upstream_failure_is_500 none
    (.obj [("topic", .str "AI regulation"),
           ("userMessage", .str "AI should be regulated"),
           ("role", .str "user")])
    (promptText "AI regulation" "AI should be regulated") rfl).1 "ECONNRESET"

/-- C3, as stated, fails: an upstream answer with status 401 and the JSON
error object `{"error": {"message": ...}}` is answered with status 200 and the
fallback reply, not with status 500. -/
theorem non2xx_error_object_answered_200 :
    (handler (some "sk-bad")
        (.obj [("topic", .str "AI regulation"),
               ("userMessage", .str "AI should be regulated")])
        (.bodyJson 401
          (.obj [("error", .obj [("message", .str "Incorrect API key provided")])]))).response
      = some ⟨200, .obj [("reply", .str "Sorry, I couldn't generate a reply.")]⟩
    ∧ (handler (some "sk-bad")
        (.obj [("topic", .str "AI regulation"),
               ("userMessage", .str "AI should be regulated")])
        (.bodyJson 401
          (.obj [("error", .obj [("message", .str "Incorrect API key provided")])]))).response
      ≠ some ⟨500, .obj [("error", .str "backend error")]⟩ := by
  refine ⟨rfl, ?_⟩
  intro h
  cases h

/-- C3 amended: the handler never reads the upstream status, so an answer
with any status is handled like every other answer with the same body.  When
the `fetch` is reached, a body that is a JSON object without a `choices`
member gives status 200 with the fallback reply, and a body that is not JSON
gives status 500 with `{error: "backend error"}`, for every upstream status. -/
theorem debate_ignores_upstream_status (apiKey : Option String) (body : Json)
    (promptValue : String) (hcall : builtPrompt body = some promptValue) :
    (∀ (s₁ s₂ : Nat) (data : Json),
        handler apiKey body (.bodyJson s₁ data) = handler apiKey body (.bodyJson s₂ data))
    ∧ (∀ (status : Nat) (fields : List (String × Json)), lookup "choices" fields = none →
        (handler apiKey body (.bodyJson status (.obj fields))).response
          = some ⟨200, .obj [("reply", .str "Sorry, I couldn't generate a reply.")]⟩)
    ∧ (∀ (status : Nat) (reason : String),
        (handler apiKey body (.bodyNotJson status reason)).response
          = some ⟨500, .obj [("error", .str "backend error")]⟩) := by
  refine ⟨?_, ?_, ?_⟩
  · intro s₁ s₂ data
    simp only [handler, tryBlock]
  · intro status fields hchoices
    rw [handler_of_builtPrompt apiKey body _ promptValue hcall]
    have hnone : contentAt (.obj fields) = none := by
      simp only [contentAt, hchoices]
    simp only [tryBlock, aiText_eq (.obj fields) (by intro h; cases h), hnone, coalesce,
      fallbackReply, stringify]
  · intro status reason
    rw [handler_of_builtPrompt apiKey body _ promptValue hcall]
    rfl

/-- An upstream 503 with an error object, through `debate_ignores_upstream_status`. -/
theorem debate_ignores_upstream_status_witness :
    (handler none (.obj [("topic", .str "cats"), ("userMessage", .str "cats rule")])
        (.bodyJson 503 (.obj [("error", .obj [("message", .str "overloaded")])]))).response
      = some ⟨200, .obj [("reply", .str "Sorry, I couldn't generate a reply.")]⟩ :=
  (debate_ignores_upstream_status none
    (.obj [("topic", .str "cats"), ("userMessage", .str "cats rule")])
    (promptText "cats" "cats rule") rfl).2.1 503
      [("error", .obj [("message", .str "overloaded")])] rfl

/-- C4: whenever the handler reaches the `fetch` and the body parses to a
JSON object in which `choices[0].message.content` is missing or `null` at some
step (no `choices`, `choices` empty or `null`, `choices[0]` `null`, no
`message`, no `content`, `content` `null`), the handler responds with status
200 and the fallback reply. -/
theorem debate_missing_content_falls_back (apiKey : Option String) (body : Json)
    (promptValue : String) (status : Nat) (fields : List (String × Json))
    (hcall : builtPrompt body = some promptValue)
    (hmissing : contentAt (.obj fields) = none ∨ contentAt (.obj fields) = some .null) :
    (handler apiKey body (.bodyJson status (.obj fields))).response
      = some ⟨200, .obj [("reply", .str "Sorry, I couldn't generate a reply.")]⟩ := by
  rw [handler_of_builtPrompt apiKey body _ promptValue hcall]
  rcases hmissing with h | h <;>
    simp only [tryBlock, aiText_eq (.obj fields) (by intro h; cases h), h, coalesce,
      fallbackReply, stringify]

/-- Scenario D of the specification, through `debate_missing_content_falls_back`. -/
theorem debate_missing_content_falls_back_witness :
    (handler none
        (.obj [("topic", .str "AI regulation"),
               ("userMessage", .str "AI should be regulated"),
               ("role", .str "user")])
        (.bodyJson 200 (.obj [("choices", .arr [])]))).response
      = some ⟨200, .obj [("reply", .str "Sorry, I couldn't generate a reply.")]⟩ :=
  debate_missing_content_falls_back none
    (.obj [("topic", .str "AI regulation"),
           ("userMessage", .str "AI should be regulated"),
           ("role", .str "user")])
    (promptText "AI regulation" "AI should be regulated") 200 [("choices", .arr [])]
    rfl (Or.inl rfl)

/-- C5, as stated, fails: an empty completion string is sent back as it is,
and the body is not the fallback reply. -/
theorem empty_completion_not_replaced :
    (handler none
        (.obj [("topic", .str "AI regulation"),
               ("userMessage", .str "AI should be regulated")])
        (.bodyJson 200
          (.obj [("choices", .arr [.obj [("message", .obj [("content", .str "")])]])]))).response
      = some ⟨200, .obj [("reply", .str "")]⟩
    ∧ (handler none
        (.obj [("topic", .str "AI regulation"),
               ("userMessage", .str "AI should be regulated")])
        (.bodyJson 200
          (.obj [("choices", .arr [.obj [("message", .obj [("content", .str "")])]])]))).response
      ≠ some ⟨200, .obj [("reply", .str "Sorry, I couldn't generate a reply.")]⟩ := by
  refine ⟨rfl, ?_⟩
  rw [show (handler none
        (.obj [("topic", .str "AI regulation"),
               ("userMessage", .str "AI should be regulated")])
        (.bodyJson 200
          (.obj [("choices", .arr [.obj [("message", .obj [("content", .str "")])]])]))).response
      = some ⟨200, .obj [("reply", .str "")]⟩ from rfl]
  simp

/-- C5 amended: whenever the handler reaches the `fetch`, the body parses
and `choices[0].message.content` is the empty string, the handler responds
with status 200 and body `{reply: ""}`; `??` replaces only a missing or `null`
content. -/
theorem debate_relays_empty_completion (apiKey : Option String) (body : Json)
    (promptValue : String) (status : Nat) (data : Json)
    (hcall : builtPrompt body = some promptValue)
    (hcontent : contentAt data = some (.str "")) :
    (handler apiKey body (.bodyJson status data)).response
      = some ⟨200, .obj [("reply", .str "")]⟩ := by
  rw [handler_of_builtPrompt apiKey body _ promptValue hcall]
  simp only [tryBlock, aiText_eq data (ne_null_of_contentAt hcontent), hcontent, coalesce,
    stringify]

/-- An empty completion behind a 200, through `debate_relays_empty_completion`. -/
theorem debate_relays_empty_completion_witness :
    (handler none (.obj [("topic", .str "cats"), ("userMessage", .str "cats rule")])
        (.bodyJson 200
          (.obj [("choices", .arr [.obj [("message", .obj [("content", .str "")])]])]))).response
      = some ⟨200, .obj [("reply", .str "")]⟩ :=
  debate_relays_empty_completion none
    (.obj [("topic", .str "cats"), ("userMessage", .str "cats rule")])
    (promptText "cats" "cats rule") 200 _ rfl rfl

/-- C6, as stated, fails twice: a body that parses to `null` is answered
with status 500, and a `content` that is the number 42, a deviation from text,
is sent back as the reply instead of the fallback string. -/
theorem deviating_body_not_always_fallback :
    (handler none (.obj [("topic", .str "cats"), ("userMessage", .str "cats rule")])
        (.bodyJson 200 .null)).response
      = some ⟨500, .obj [("error", .str "backend error")]⟩
    ∧ (handler none (.obj [("topic", .str "cats"), ("userMessage", .str "cats rule")])
        (.bodyJson 200
          (.obj [("choices", .arr [.obj [("message", .obj [("content", .num "42")])]])]))).response
      = some ⟨200, .obj [("reply", .num "42")]⟩
    ∧ Json.num "42" ≠ Json.str "Sorry, I couldn't generate a reply." := by
  refine ⟨rfl, rfl, ?_⟩
  intro h
  cases h

/-- C6 amended: whenever the handler reaches the `fetch` and the body parses
to a JSON value other than `null`, the handler responds with status 200 and a
body `{reply: r}`, never with status 500.  The reply `r` is the fallback
string when `choices[0].message.content` is missing or `null`, which covers
every top-level value that is not an object; a `content` that is present and
not `null` is handed to `res.json` and goes out as `JSON.stringify` writes it:
a string as that string, any value whose numbers are all finite as it is. -/
theorem debate_parsed_body_never_500 (apiKey : Option String) (body : Json)
    (promptValue : String) (status : Nat) (data : Json)
    (hcall : builtPrompt body = some promptValue) (hdata : data ≠ .null) :
    ∃ r : Json,
      (handler apiKey body (.bodyJson status data)).response
          = some ⟨200, .obj [("reply", r)]⟩
      ∧ ((contentAt data = none ∨ contentAt data = some .null)
          → r = .str "Sorry, I couldn't generate a reply.")
      ∧ ((∀ fields, data ≠ .obj fields) → r = .str "Sorry, I couldn't generate a reply.")
      ∧ (∀ v, contentAt data = some v → v ≠ .null → r = stringify v)
      ∧ (∀ s, contentAt data = some (.str s) → r = .str s)
      ∧ (∀ v, contentAt data = some v → v ≠ .null → allFinite v = true → r = v) := by
  have hkeep : ∀ v, contentAt data = some v → v ≠ .null →
      stringify (coalesce (.str fallbackReply) (contentAt data)) = stringify v := by
    intro v hv hvnull
    rw [hv]
    cases v with
    | null => exact absurd rfl hvnull
    | _ => rfl
  refine ⟨stringify (coalesce (.str fallbackReply) (contentAt data)), ?_, ?_, ?_, hkeep, ?_, ?_⟩
  · rw [handler_of_builtPrompt apiKey body _ promptValue hcall]
    simp only [tryBlock, aiText_eq data hdata]
  · rintro (h | h) <;> rw [h] <;> rfl
  · intro hnotobj
    cases data with
    | obj fields => exact absurd rfl (hnotobj fields)
    | _ => rfl
  · intro s hs
    rw [hkeep (.str s) hs (by intro h; cases h)]
    rfl
  · intro v hv hvnull hfinite
    rw [hkeep v hv hvnull, stringify_of_allFinite v hfinite]

/-- A body that parses to the number 7, through `debate_parsed_body_never_500`. -/
theorem debate_parsed_body_never_500_witness :
    ∃ r : Json,
      (handler none (.obj [("topic", .str "cats"), ("userMessage", .str "cats rule")])
          (.bodyJson 200 (.num "7"))).response
          = some ⟨200, .obj [("reply", r)]⟩
      ∧ r = .str "Sorry, I couldn't generate a reply." := by
  obtain ⟨r, hresp, hfall, _, _⟩ :=
    debate_parsed_body_never_500 none
      (.obj [("topic", .str "cats"), ("userMessage", .str "cats rule")])
      (promptText "cats" "cats rule") 200 (.num "7") rfl (by intro h; cases h)
  exact ⟨r, hresp, hfall (Or.inl rfl)⟩

/-- A `content` of `1e999` parses to an infinity, passes `??`, and goes out
as `null`: the response is status 200 with body `{reply: null}`. -/
theorem overflowing_content_sent_as_null :
    (handler none (.obj [("topic", .str "cats"), ("userMessage", .str "cats rule")])
        (.bodyJson 200
          (.obj [("choices", .arr [.obj [("message", .obj [("content", .num "Infinity")])]])]))).response
      = some ⟨200, .obj [("reply", .null)]⟩ :=
  rfl

/-! ## The prompt and the outbound call -/

/-- C7, as stated, fails: a request with `topic` missing whose `userMessage`
is an object with an own `toString` member makes the template literal throw
before the `try`; no prompt is built, no outbound call is made and no response
is sent. -/
theorem unconvertible_field_stops_handler :
    builtPrompt (.obj [("userMessage", .obj [("toString", .num "1")])]) = none
    ∧ (handler none (.obj [("userMessage", .obj [("toString", .num "1")])])
        (.bodyJson 200
          (.obj [("choices", .arr [.obj [("message", .obj [("content", .str "ok")])]])]))).calls
      = []
    ∧ (handler none (.obj [("userMessage", .obj [("toString", .num "1")])])
        (.bodyJson 200
          (.obj [("choices", .arr [.obj [("message", .obj [("content", .str "ok")])]])]))).response
      = none :=
  ⟨rfl, rfl, rfl⟩

/-- C7 amended: for every request body (not `null`) whose `topic` and
`userMessage` substitutions convert to strings `t` and `u`, the prompt is the
fixed template around `t` and `u`; an absent field converts to the text
`undefined` and a string field to itself; the outbound call is made with that
prompt whatever the upstream does, and the response status is 200 or 500,
never a 4xx. -/
theorem debate_prompt_of_convertible_fields (apiKey : Option String) (body : Json)
    (t u : String) (up : Upstream) (hbody : body ≠ .null)
    (ht : substitute (getNamed "topic" body) = some t)
    (hu : substitute (getNamed "userMessage" body) = some u) :
    builtPrompt body
        = some ("You are an argumentative debate partner. Topic: " ++ t ++
            "\nUser says: \"" ++ u ++
            "\"\nRespond with one clear argument or rebuttal in 2-4 sentences. Be concise and give reasoning.")
    ∧ (getNamed "topic" body = none → t = "undefined")
    ∧ (getNamed "userMessage" body = none → u = "undefined")
    ∧ (∀ s, getNamed "topic" body = some (.str s) → t = s)
    ∧ (∀ s, getNamed "userMessage" body = some (.str s) → u = s)
    ∧ (handler apiKey body up).calls = [outboundCall apiKey (promptText t u)]
    ∧ (∃ r, (handler apiKey body up).response = some r ∧ (r.status = 200 ∨ r.status = 500)) := by
  have hbuilt : builtPrompt body = some (promptText t u) := by
    simp only [builtPrompt, destructure_of_ne_null body hbody, prompt, ht, hu]
  refine ⟨hbuilt, ?_, ?_, ?_, ?_, ?_, ?_⟩
  · intro h
    rw [h] at ht
    exact (Option.some.inj ht).symm
  · intro h
    rw [h] at hu
    exact (Option.some.inj hu).symm
  · intro s h
    rw [h] at ht
    exact (Option.some.inj ht).symm
  · intro s h
    rw [h] at hu
    exact (Option.some.inj hu).symm
  · rw [handler_of_builtPrompt apiKey body up _ hbuilt]
    cases tryBlock up <;> rfl
  · rw [handler_of_builtPrompt apiKey body up _ hbuilt]
    cases tryBlock up with
    | ok text => exact ⟨_, rfl, Or.inl rfl⟩
    | error err => exact ⟨_, rfl, Or.inr rfl⟩

/-- Scenario C of the specification, a request without `topic`, through
`debate_prompt_of_convertible_fields`. -/
theorem debate_prompt_of_convertible_fields_witness :
    builtPrompt (.obj [("userMessage", .str "AI should be regulated"), ("role", .str "user")])
        = some ("You are an argumentative debate partner. Topic: undefined" ++
            "\nUser says: \"AI should be regulated\"" ++
            "\nRespond with one clear argument or rebuttal in 2-4 sentences. Be concise and give reasoning.")
    ∧ (handler none
        (.obj [("userMessage", .str "AI should be regulated"), ("role", .str "user")])
        (.fetchRejects "ECONNRESET")).calls
      = [outboundCall none (promptText "undefined" "AI should be regulated")] :=
  have h := debate_prompt_of_convertible_fields none
    (.obj [("userMessage", .str "AI should be regulated"), ("role", .str "user")])
    "undefined" "AI should be regulated" (.fetchRejects "ECONNRESET")
    (by intro h; cases h) rfl rfl
  ⟨h.1, h.2.2.2.2.2.1⟩

/-- C8, as stated, fails: a request whose `topic` is an object with an own
`toString` member makes the handler throw before the `fetch`, so the number of
outbound calls is zero, not one. -/
theorem unconvertible_topic_makes_no_call :
    (handler (some "sk-test")
        (.obj [("topic", .obj [("toString", .str "x")]), ("userMessage", .str "hello")])
        (.fetchRejects "ECONNRESET")).calls = []
    ∧ (handler (some "sk-test")
        (.obj [("topic", .obj [("toString", .str "x")]), ("userMessage", .str "hello")])
        (.fetchRejects "ECONNRESET")).calls.length ≠ 1 := by
  refine ⟨rfl, ?_⟩
  rw [show (handler (some "sk-test")
        (.obj [("topic", .obj [("toString", .str "x")]), ("userMessage", .str "hello")])
        (.fetchRejects "ECONNRESET")).calls = [] from rfl]
  decide

/-- C8 amended: for every inbound request whose prompt is built, whatever
the upstream outcome, the handler issues exactly one outbound call: a POST to
the completions endpoint whose JSON body is the fixed model name, the two
messages (system instruction, then the user message with the built prompt) in
that order, and `max_tokens` 200. -/
theorem debate_single_outbound_call (apiKey : Option String) (body : Json)
    (promptValue : String) (up : Upstream) (hcall : builtPrompt body = some promptValue) :
    ∃ call : OutboundCall,
      (handler apiKey body up).calls = [call]
      ∧ call.method = "POST"
      ∧ call.url = "https://api.openai.com/v1/chat/completions"
      ∧ call.body =
          .obj [("model", .str "gpt-4o-mini"),
                ("messages", .arr [.obj [("role", .str "system"),
                                         ("content", .str "You are a helpful debate partner.")],
                                   .obj [("role", .str "user"),
                                         ("content", .str promptValue)]]),
                ("max_tokens", .num "200")] := by
  refine ⟨outboundCall apiKey promptValue, ?_, rfl, rfl, rfl⟩
  rw [handler_of_builtPrompt apiKey body up _ hcall]
  cases tryBlock up <;> rfl

/-- One call when the upstream fails, through `debate_single_outbound_call`. -/
theorem debate_single_outbound_call_witness :
    ∃ call : OutboundCall,
      (handler (some "sk-test")
          (.obj [("topic", .str "cats"), ("userMessage", .str "cats rule")])
          (.bodyNotJson 502 "Unexpected token <")).calls = [call]
      ∧ call.method = "POST"
      ∧ call.body =
          .obj [("model", .str "gpt-4o-mini"),
                ("messages", .arr [.obj [("role", .str "system"),
                                         ("content", .str "You are a helpful debate partner.")],
                                   .obj [("role", .str "user"),
                                         ("content", .str (promptText "cats" "cats rule"))]]),
                ("max_tokens", .num "200")] := by
  obtain ⟨call, hcalls, hmethod, _, hbody⟩ :=
    debate_single_outbound_call (some "sk-test")
      (.obj [("topic", .str "cats"), ("userMessage", .str "cats rule")])
      (promptText "cats" "cats rule") (.bodyNotJson 502 "Unexpected token <") rfl
  exact ⟨call, hcalls, hmethod, hbody⟩

/-- C9: `role` does not influence the handler.  Two request objects with the
same `topic` and the same `userMessage`, whatever their `role` (present or
not) and their other members, give the same run for the same upstream
outcome: the same outbound call, the same log and the same response. -/
theorem debate_role_not_read (apiKey : Option String) (f₁ f₂ : List (String × Json))
    (up : Upstream) (htopic : lookup "topic" f₁ = lookup "topic" f₂)
    (hmessage : lookup "userMessage" f₁ = lookup "userMessage" f₂) :
    handler apiKey (.obj f₁) up = handler apiKey (.obj f₂) up := by
  simp only [handler, builtPrompt, destructure, getNamed, htopic, hmessage]

/-- A `user` request against the same request without `role`, through
`debate_role_not_read`. -/
theorem debate_role_not_read_witness :
    handler none
        (.obj [("topic", .str "cats"), ("userMessage", .str "cats rule"), ("role", .str "user")])
        (.bodyJson 200 (.obj [("choices", .arr [])]))
      = handler none
        (.obj [("topic", .str "cats"), ("userMessage", .str "cats rule")])
        (.bodyJson 200 (.obj [("choices", .arr [])])) :=
  debate_role_not_read none
    [("topic", .str "cats"), ("userMessage", .str "cats rule"), ("role", .str "user")]
    [("topic", .str "cats"), ("userMessage", .str "cats rule")]
    (.bodyJson 200 (.obj [("choices", .arr [])])) rfl rfl

/-! ## The shape of the response -/

/-- C10, as stated, fails: a `content` that is the boolean `false` is sent
back as the reply, so the reply is not a string. -/
theorem boolean_content_relayed :
    (handler none (.obj [("topic", .str "cats"), ("userMessage", .str "cats rule")])
        (.bodyJson 200
          (.obj [("choices", .arr [.obj [("message", .obj [("content", .bool false)])]])]))).response
      = some ⟨200, .obj [("reply", .bool false)]⟩
    ∧ ∀ s : String, Json.bool false ≠ Json.str s := by
  refine ⟨rfl, ?_⟩
  intro s h
  cases h

/-- C10 amended: whenever the handler reaches the `fetch`, for every
upstream outcome the response is either status 500 with body
`{error: "backend error"}`, or status 200 with body `{reply: r}`, and nothing
else.  The reply `r` is the fallback string when `choices[0].message.content`
is missing or `null`; otherwise it is that content as `JSON.stringify` writes
it, with the JSON type it has: a string content gives a string reply, and a
content whose numbers are all finite gives itself. -/
theorem debate_response_shape (apiKey : Option String) (body : Json)
    (promptValue : String) (up : Upstream) (hcall : builtPrompt body = some promptValue) :
    (handler apiKey body up).response = some ⟨500, .obj [("error", .str "backend error")]⟩
    ∨ ∃ (r : Json) (status : Nat) (data : Json),
        (handler apiKey body up).response = some ⟨200, .obj [("reply", r)]⟩
        ∧ up = .bodyJson status data
        ∧ (((contentAt data = none ∨ contentAt data = some .null)
              ∧ r = .str "Sorry, I couldn't generate a reply.")
            ∨ ∃ v, contentAt data = some v ∧ v ≠ .null ∧ r = stringify v
                ∧ (∀ s, v = .str s → r = .str s)
                ∧ (allFinite v = true → r = v)) := by
  rw [handler_of_builtPrompt apiKey body up _ hcall]
  cases up with
  | fetchRejects reason => exact Or.inl rfl
  | bodyNotJson status reason => exact Or.inl rfl
  | bodyJson status data =>
    by_cases hdata : data = .null
    · subst hdata
      exact Or.inl rfl
    · refine Or.inr ⟨stringify (coalesce (.str fallbackReply) (contentAt data)), status, data,
        ?_, rfl, ?_⟩
      · simp only [tryBlock, aiText_eq data hdata]
      · rcases coalesce_cases (.str fallbackReply) (contentAt data) with ⟨h, hr⟩ | ⟨h, hne⟩
        · refine Or.inl ⟨h, ?_⟩
          rw [hr]
          rfl
        · refine Or.inr ⟨coalesce (.str fallbackReply) (contentAt data), h, hne, rfl, ?_, ?_⟩
          · intro s hs
            rw [hs]
            rfl
          · intro hfinite
            exact stringify_of_allFinite _ hfinite

/-- A numeric content behind a 200, through `debate_response_shape`. -/
theorem debate_response_shape_witness :
    (handler none (.obj [("topic", .str "cats"), ("userMessage", .str "cats rule")])
        (.bodyJson 200
          (.obj [("choices", .arr [.obj [("message", .obj [("content", .num "3.5")])]])]))).response
        = some ⟨500, .obj [("error", .str "backend error")]⟩
    ∨ ∃ (r : Json) (status : Nat) (data : Json),
        (handler none (.obj [("topic", .str "cats"), ("userMessage", .str "cats rule")])
          (.bodyJson 200
            (.obj [("choices", .arr [.obj [("message", .obj [("content", .num "3.5")])]])]))).response
          = some ⟨200, .obj [("reply", r)]⟩
        ∧ Upstream.bodyJson 200
            (.obj [("choices", .arr [.obj [("message", .obj [("content", .num "3.5")])]])])
          = .bodyJson status data
        ∧ (((contentAt data = none ∨ contentAt data = some .null)
              ∧ r = .str "Sorry, I couldn't generate a reply.")
            ∨ ∃ v, contentAt data = some v ∧ v ≠ .null ∧ r = stringify v
                ∧ (∀ s, v = .str s → r = .str s)
                ∧ (allFinite v = true → r = v)) :=
  debate_response_shape none
    (.obj [("topic", .str "cats"), ("userMessage", .str "cats rule")])
    (promptText "cats" "cats rule")
    (.bodyJson 200
      (.obj [("choices", .arr [.obj [("message", .obj [("content", .num "3.5")])]])])) rfl

end Backend
